import Mathlib

/-!
Verification of the element-resolution and picker-wheel control engine of a
mobile-app navigation tool. Python sources are shallowly embedded: Python
string primitives are modelled over `List Char` by structural recursion
(ASCII-faithful for all inputs that occur here), the Appium driver and the
external language model are oracles passed as function arguments, and
stateful loops become fuel-indexed recursions returning explicit traces.
-/

/-! ## Python string primitives (modelled over `List Char`) -/

/-- A single-quote character as a one-character string, used to assemble the
XPath literals the sources build with f-strings. -/
def apos : String := String.singleton (Char.ofNat 39)

/-- `isPrefixList p s` is true when `p` is a prefix of `s`. -/
def isPrefixList : List Char → List Char → Bool
  | [], _ => true
  | _ :: _, [] => false
  | p :: ps, c :: cs => p == c && isPrefixList ps cs

/-- Substring occurrence test on character lists. -/
def hasSubstrList (pat : List Char) : List Char → Bool
  | [] => pat.isEmpty
  | c :: cs => isPrefixList pat (c :: cs) || hasSubstrList pat cs

/-- Python `needle in hay` for strings (empty needle always matches). -/
def containsSubstr (hay needle : String) : Bool :=
  if needle.data.isEmpty then true else hasSubstrList needle.data hay.data

/-- Worker for `pySplit`: left-to-right non-overlapping split.  The `Nat`
argument counts separator characters still to be skipped after a match. -/
def pySplitAux (sep : List Char) : List Char → Nat → List Char → List (List Char)
  | [], _, cur => [cur]
  | c :: cs, 0, cur =>
      if isPrefixList sep (c :: cs) then
        cur :: pySplitAux sep cs (sep.length - 1) []
      else
        pySplitAux sep cs 0 (cur ++ [c])
  | _ :: cs, n + 1, cur => pySplitAux sep cs n cur

/-- Python `s.split(sep)` for a non-empty separator (the sources never split
on the empty string; that case is returned unsplit). -/
def pySplit (s sep : String) : List String :=
  if sep.data.isEmpty then [s]
  else (pySplitAux sep.data s.data 0 []).map String.mk

/-- Worker for `pyReplace`, same skip-counter scheme as `pySplitAux`. -/
def pyReplaceAux (pat repl : List Char) : List Char → Nat → List Char
  | [], _ => []
  | c :: cs, 0 =>
      if isPrefixList pat (c :: cs) then
        repl ++ pyReplaceAux pat repl cs (pat.length - 1)
      else
        c :: pyReplaceAux pat repl cs 0
  | _ :: cs, n + 1 => pyReplaceAux pat repl cs n

/-- Python `s.replace(old, new)` for a non-empty `old`. -/
def pyReplace (s old new : String) : String :=
  if old.data.isEmpty then s
  else String.mk (pyReplaceAux old.data new.data s.data 0)

/-- Python `s.strip()` (whitespace on both ends removed). -/
def pyStrip (s : String) : String :=
  String.mk (((s.data.dropWhile Char.isWhitespace).reverse.dropWhile
    Char.isWhitespace).reverse)

/-- Python `s.lower()` (ASCII). -/
def pyLower (s : String) : String := String.mk (s.data.map Char.toLower)

/-- Python `s.upper()` (ASCII). -/
def pyUpper (s : String) : String := String.mk (s.data.map Char.toUpper)

/-- Python `s[:n]` on characters. -/
def pyTake (s : String) (n : Nat) : String := String.mk (s.data.take n)

/-- Python `sep.join(parts)`. -/
def pyJoin (sep : String) : List String → String
  | [] => ""
  | [x] => x
  | x :: xs => x ++ sep ++ pyJoin sep xs

/-- Python `s.split(sep, 1)`: split at the first occurrence only. -/
def pySplit1 (s sep : String) : List String :=
  match pySplit s sep with
  | [] => []
  | x :: rest => if rest.isEmpty then [x] else [x, pyJoin sep rest]

/-- Python `s.split()` (split on whitespace runs, dropping empty pieces). -/
def pySplitWsAux : List Char → List Char → List String
  | [], cur => if cur.isEmpty then [] else [String.mk cur]
  | c :: cs, cur =>
      if c.isWhitespace then
        if cur.isEmpty then pySplitWsAux cs []
        else String.mk cur :: pySplitWsAux cs []
      else pySplitWsAux cs (cur ++ [c])

/-- Python `s.split()` with no argument. -/
def pySplitWs (s : String) : List String := pySplitWsAux s.data []

/-- Value of a non-empty all-digit character list, `none` otherwise
(Python `str.isdigit` plus `int`). -/
def digitsVal? (l : List Char) : Option Nat :=
  if l.isEmpty then none
  else if l.all Char.isDigit then
    some (l.foldl (fun n c => n * 10 + (c.toNat - 48)) 0)
  else none

/-- Python `int(s)` for string arguments: optional surrounding whitespace,
optional sign, digits; `none` models the `ValueError` the callers catch. -/
def pyInt? (s : String) : Option Int :=
  let t := pyStrip s
  match t.data with
  | [] => none
  | c :: cs =>
    if c == '-' then (digitsVal? cs).map (fun n => -(n : Int))
    else if c == '+' then (digitsVal? cs).map (fun n => (n : Int))
    else (digitsVal? (c :: cs)).map (fun n => (n : Int))

/-- Python truthiness of a string value (`bool(s)`). -/
def pyTruthy (s : String) : Bool := !(s == "")

/-- `Except` viewed as a sum, to derive decidable equality for it. -/
def exceptToSum {e a : Type} : Except e a → e ⊕ a
  | .error x => .inl x
  | .ok x => .inr x

instance {e a : Type} [DecidableEq e] [DecidableEq a] : DecidableEq (Except e a) :=
  fun x y =>
    decidable_of_iff (exceptToSum x = exceptToSum y)
      (by cases x <;> cases y <;> simp [exceptToSum])

/-! ## XML snapshot model and `xml.etree.ElementTree` queries

`src/elements/element_parser.py` parses the page source with
`xml.etree.ElementTree` and queries it with `root.findall(path)`.  A parsed
snapshot is modelled as `XNode`; `etFindall` models `findall` restricted to
the path shapes this repository passes it, including CPython's behaviour of
raising `SyntaxError("invalid predicate")` for `contains()` predicates,
which ElementTree's limited XPath dialect does not support. -/

/-- A node of a parsed UI-tree snapshot: tag, attributes, children. -/
inductive XNode where
  | mk (tag : String) (attrs : List (String × String)) (children : List XNode)

/-- The element tag. -/
def XNode.tag : XNode → String
  | .mk t _ _ => t

/-- The attribute list. -/
def XNode.attrs : XNode → List (String × String)
  | .mk _ a _ => a

/-- The child list. -/
def XNode.children : XNode → List XNode
  | .mk _ _ c => c

/-- Python `elem.get(key)`: first binding of `key`, if any. -/
def XNode.get? (n : XNode) (key : String) : Option String :=
  (n.attrs.find? (fun p => p.1 == key)).map (fun p => p.2)

/-- Python `elem.get(key, dflt)`. -/
def XNode.getD (n : XNode) (key dflt : String) : String :=
  (n.get? key).getD dflt

mutual

/-- All proper descendants of a node in document (preorder) order, the
order in which `findall(".//...")` yields matches. -/
def XNode.descendants : XNode → List XNode
  | .mk _ _ children => descendantsList children

/-- Descendants-or-self of each node of a forest, in document order. -/
def descendantsList : List XNode → List XNode
  | [] => []
  | c :: cs => c :: XNode.descendants c ++ descendantsList cs

end

/-- `root.findall(path)` for the path shapes used by `element_parser.py`:
`.//*[@attr='value']`, `.//tag`, and anything containing a `contains()`
predicate, which CPython's ElementTree rejects with
`SyntaxError("invalid predicate")`. -/
def etFindall (root : XNode) (path : String) : Except String (List XNode) :=
  if containsSubstr path "contains(" then
    Except.error "invalid predicate"
  else if containsSubstr path ".//*[@" then
    -- shape ".//*[@" ++ attr ++ "='" ++ value ++ "']"
    let inner := String.mk ((path.data.drop 6).take (path.data.length - 8))
    match pySplit inner ("=" ++ apos) with
    | [attr, val] =>
        Except.ok (root.descendants.filter (fun n => n.get? attr == some val))
    | _ => Except.error "invalid path"
  else if isPrefixList (".//").data path.data then
    let tag := String.mk (path.data.drop 3)
    Except.ok (root.descendants.filter (fun n => n.tag == tag))
  else
    Except.error "unsupported path"

/-! ## `element_parser.extract_available_elements` -/

/-- iOS whitelist of interactive element types (element_parser.py:10). -/
def ios_interactive_types : List String :=
  ["XCUIElementTypeButton", "XCUIElementTypeCell", "XCUIElementTypeTextField",
   "XCUIElementTypeSwitch", "XCUIElementTypeLink", "XCUIElementTypeSearchField",
   "XCUIElementTypeTable", "XCUIElementTypeStaticText", "XCUIElementTypeOther"]

/-- Android whitelist of interactive element types (element_parser.py:22). -/
def android_interactive_types : List String :=
  ["android.widget.Button", "android.widget.ImageButton", "android.widget.TextView",
   "android.widget.EditText", "android.widget.CheckBox", "android.widget.Switch",
   "android.widget.RadioButton", "android.widget.Spinner", "android.widget.ListView",
   "android.view.View"]

/-- Python `a or b` on strings: `a` when truthy, else `b`. -/
def pyOr (a b : String) : String := if pyTruthy a then a else b

/-- The `"type: identifier"` inventory entry of one node, or `none` when the
node is skipped: models element_parser.py:47-74 (attribute record, the
enabled/visible/displayed filter, and the identifier preference chain). -/
def entryOf (elem : XNode) : Option String :=
  let ty := elem.getD "type" elem.tag
  let enabled := elem.getD "enabled" "false"
  let visible := elem.getD "visible" "false"
  let displayed := elem.getD "displayed" "false"
  if !(enabled == "true" || visible == "true" || displayed == "true") then
    none
  else
    let identifier :=
      pyOr (elem.getD "name" "") (pyOr (elem.getD "label" "")
        (pyOr (elem.getD "text" "") (pyOr (elem.getD "content-desc" "")
          (pyOr (elem.getD "resource-id" "") (elem.getD "value" "")))))
    if pyTruthy identifier then some (ty ++ ": " ++ identifier) else none

/-- The duplicate-skipping append of element_parser.py:72-74. -/
def addUnique (l : List String) (x : String) : List String :=
  if x ∈ l then l else l ++ [x]

/-- Inner loop over the nodes returned for one whitelisted type. -/
def collectEntries (elems : List XNode) (acc : List String) : List String :=
  elems.foldl (fun acc2 elem =>
    match entryOf elem with
    | some s => addUnique acc2 s
    | none => acc2) acc

/-- The per-type query path of element_parser.py:44. -/
def typeXpath (elem_type : String) : String :=
  if containsSubstr elem_type "XCUI" then
    ".//*[@type=" ++ apos ++ elem_type ++ apos ++ "]"
  else ".//" ++ elem_type

/-- Outer loop of element_parser.py:42-74 over the type whitelist; a query
failure aborts the whole extraction (caught by the caller's `except`). -/
def extractLoop (root : XNode) : List String → List String → Except String (List String)
  | [], acc => Except.ok acc
  | elem_type :: rest, acc =>
      match etFindall root (typeXpath elem_type) with
      | Except.error e => Except.error e
      | Except.ok elems => extractLoop root rest (collectEntries elems acc)

/-- The deduplicated, ordered inventory entries of a snapshot. -/
def extract_entries (root : XNode) (platform : Option String) : Except String (List String) :=
  let interactive_types :=
    if platform == some "android" then android_interactive_types
    else ios_interactive_types
  extractLoop root interactive_types []

/-- `extract_available_elements` (element_parser.py:3-84) on an already
parsed snapshot; the `except` branch (element_parser.py:82) yields the
literal parse-error message. -/
def extract_available_elements (root : XNode) (platform : Option String) : String :=
  match extract_entries root platform with
  | Except.ok available_elements =>
      if !available_elements.isEmpty then pyJoin "\n" available_elements
      else "No identifiable interactive elements found on screen."
  | Except.error _ => "Error extracting elements from page source."

/-! ## `element_parser.detect_popup_state` -/

/-- A parsed popup bounding box. -/
structure Bounds where
  x : Int
  y : Int
  width : Int
  height : Int
deriving DecidableEq

/-- The result dictionary of `detect_popup_state`; keys absent from the
Python dict are modelled as `none`. -/
structure PopupState where
  has_popup : Bool
  popup_type : Option String
  bounds : Option Bounds
  error : Option String
deriving DecidableEq

/-- The bounds-string parsing block of element_parser.py:146-166: strip the
bracket or brace characters, split on commas, and read four integers; any
`ValueError`/`IndexError` is caught and leaves the bounds unset. -/
def parse_bounds (bounds_str : String) : Option Bounds :=
  if containsSubstr bounds_str "[" then
    -- comment in the source: Android format "[left,top][right,bottom]"
    let parts := pySplit (pyReplace (pyReplace bounds_str "[" "") "]" "") ","
    if parts.length ≥ 4 then
      match pyInt? (parts.getD 0 ""), pyInt? (parts.getD 1 ""),
            pyInt? (parts.getD 2 ""), pyInt? (parts.getD 3 "") with
      | some l, some t, some r, some b => some ⟨l, t, r - l, b - t⟩
      | _, _, _, _ => none
    else none
  else if containsSubstr bounds_str "\x7b" then
    -- comment in the source: iOS format "{{x, y}, {width, height}}"
    let parts := pySplit (pyReplace (pyReplace (pyReplace bounds_str "\x7b" "")
      "\x7d" "") " " "") ","
    if parts.length ≥ 4 then
      match pyInt? (parts.getD 0 ""), pyInt? (parts.getD 1 ""),
            pyInt? (parts.getD 2 ""), pyInt? (parts.getD 3 "") with
      | some x, some y, some w, some h => some ⟨x, y, w, h⟩
      | _, _, _, _ => none
    else none
  else none

/-- iOS alert query of element_parser.py:92. -/
def ios_alert_xpath : String :=
  ".//*[contains(@type, " ++ apos ++ "Alert" ++ apos ++ ")]"

/-- iOS dialog query of element_parser.py:93. -/
def ios_dialog_xpath : String :=
  ".//*[contains(@type, " ++ apos ++ "Dialog" ++ apos ++ ")]"

/-- iOS action-sheet query of element_parser.py:94. -/
def ios_action_sheet_xpath : String :=
  ".//*[contains(@type, " ++ apos ++ "ActionSheet" ++ apos ++ ")]"

/-- Android alert query of element_parser.py:97. -/
def android_alert_xpath : String :=
  ".//android.widget.FrameLayout[@resource-id=" ++ apos ++ "android:id/content" ++
    apos ++ "]/*[contains(@resource-id, " ++ apos ++ "popup" ++ apos ++
    ") or contains(@resource-id, " ++ apos ++ "alert" ++ apos ++
    ") or contains(@resource-id, " ++ apos ++ "dialog" ++ apos ++ ")]"

/-- Android dialog query of element_parser.py:98. -/
def android_dialog_xpath : String := ".//android.app.Dialog"

/-- Body of `detect_popup_state` inside its `try` (element_parser.py:89-174);
an `Except.error` is a raised exception, caught by the wrapper below. -/
def detect_popup_stateCore (root : XNode) : Except String PopupState :=
  match etFindall root ios_alert_xpath with
  | Except.error e => Except.error e
  | Except.ok ios_alerts =>
  match etFindall root ios_dialog_xpath with
  | Except.error e => Except.error e
  | Except.ok ios_dialogs =>
  match etFindall root ios_action_sheet_xpath with
  | Except.error e => Except.error e
  | Except.ok ios_action_sheets =>
  match etFindall root android_alert_xpath with
  | Except.error e => Except.error e
  | Except.ok android_alerts =>
  match etFindall root android_dialog_xpath with
  | Except.error e => Except.error e
  | Except.ok android_dialogs =>
  let has_popup := ios_alerts.length > 0 || ios_dialogs.length > 0 ||
    ios_action_sheets.length > 0 || android_alerts.length > 0 ||
    android_dialogs.length > 0
  if has_popup then
    let popup_type :=
      if ios_action_sheets.length > 0 then "action_sheet"
      else if ios_dialogs.length > 0 || android_dialogs.length > 0 then "dialog"
      else "alert"
    let popup_element : Option XNode :=
      if ios_alerts.length > 0 then ios_alerts.head?
      else if ios_dialogs.length > 0 then ios_dialogs.head?
      else if ios_action_sheets.length > 0 then ios_action_sheets.head?
      else if android_alerts.length > 0 then android_alerts.head?
      else android_dialogs.head?
    let bounds :=
      match popup_element with
      | some el =>
          -- popup_element.get('bounds') or popup_element.get('frame')
          let bounds_str := pyOr (el.getD "bounds" "") (el.getD "frame" "")
          if pyTruthy bounds_str then parse_bounds bounds_str else none
      | none => none
    Except.ok ⟨true, some popup_type, bounds, none⟩
  else
    Except.ok ⟨false, none, none, none⟩

/-- `detect_popup_state` (element_parser.py:86-178) on a parsed snapshot: a
raised exception is caught and reported as `{'has_popup': False,
'error': str(e)}`. -/
def detect_popup_state (root : XNode) : PopupState :=
  match detect_popup_stateCore root with
  | Except.ok st => st
  | Except.error e => ⟨false, none, none, some e⟩

/-! ## `utils/formatting.split_navigation_steps` -/

/-- The literal separator phrases of formatting.py:13-18, in order. -/
def separators : List String :=
  [" then ", " and then ", " after that ", " next ",
   ", then ", ", and then ", ", after that ", ", next ",
   "; then ", "; and then ", "; after that ", "; next ",
   " and "]

/-- `split_navigation_steps` (formatting.py:10-35): split successively by
every separator, strip the fragments, drop empty ones, and fall back to the
original instruction when nothing is left. -/
def split_navigation_steps (instruction : String) : List String :=
  let steps := separators.foldl
    (fun steps separator => steps.flatMap (fun s => pySplit s separator))
    [instruction]
  let steps := (steps.map pyStrip).filter (fun s => pyTruthy s)
  if steps.isEmpty then [instruction] else steps

/-! ## `navigation/navigator.AppNavigator.navigate_multi_step`

`navigate` consults the automation session and the external language model;
for the sequencing logic it is an oracle `String → NavResult`, and the
session liveness probe is an oracle indexed by the step number. -/

/-- The result dictionary of one navigation step: the optional `"error"`
entry, plus the rest of the dictionary as an opaque payload. -/
structure NavResult where
  error : Option String
  payload : String
deriving DecidableEq

/-- The result appended when the session probe fails (navigator.py:137-141). -/
def sessionInvalidResult : NavResult :=
  ⟨some "Session is not valid. Please restart the app manually.", ""⟩

/-- Results plus the list of steps for which `navigate` was actually
invoked, recorded to state what the loop did and did not execute. -/
structure MultiStepTrace where
  results : List NavResult
  executed : List String
deriving DecidableEq

/-- The step loop of navigator.py:132-165: probe the session, run the step,
append its result, and break on a session failure or on a result carrying
an error. -/
def multiStepLoop (checkSession : Nat → Bool) (navigate : String → NavResult) :
    List String → Nat → List NavResult → List String → MultiStepTrace
  | [], _, results, executed => ⟨results, executed⟩
  | step :: rest, i, results, executed =>
      if !checkSession i then ⟨results ++ [sessionInvalidResult], executed⟩
      else
        let result := navigate step
        let results := results ++ [result]
        let executed := executed ++ [step]
        if result.error.isSome then ⟨results, executed⟩
        else multiStepLoop checkSession navigate rest (i + 1) results executed

/-- `navigate_multi_step` (navigator.py:116-166). -/
def navigate_multi_step (checkSession : Nat → Bool) (navigate : String → NavResult)
    (instruction : String) : MultiStepTrace :=
  multiStepLoop checkSession navigate (split_navigation_steps instruction) 0 [] []

/-- The step oracle of the C6 witness: resolving `"tap wifi"` fails with an
element-not-found error, every other step succeeds. -/
def witnessNavigate : String → NavResult := fun s =>
  if s == "tap wifi" then ⟨some "Element not found: tap wifi", ""⟩ else ⟨none, s⟩

/-! ## `pickers/picker_handler.PickerHandler.select_value_fast`

The wheel is an oracle `reads : Nat → Option String` giving the value
returned by the k-th `wheel.get_attribute("value")` call (`none` models a
missing value).  Scroll gestures and sleeps have no effect in the model
beyond being recorded in the returned trace; the distance factors, float
literals in the source, are represented exactly as integers in hundredths
(0.5 becomes 50, 2.0 becomes 200, and so on — every factor in the source is
a multiple of 0.05 and only comparisons among factors occur, so all
orderings are preserved exactly). -/

/-- `MONTH2INT` (picker_handler.py:26): month names mapped to 1..12 in
calendar order. -/
def MONTH2INT : List (String × Int) :=
  [("January", 1), ("February", 2), ("March", 3), ("April", 4), ("May", 5),
   ("June", 6), ("July", 7), ("August", 8), ("September", 9), ("October", 10),
   ("November", 11), ("December", 12)]

/-- `_to_key` (picker_handler.py:38-63): digits parse directly, else month
name (exact, then 3-letter prefix, first match in calendar order), else 0. -/
def to_key (txt : String) : Int :=
  let t := pyStrip txt
  match digitsVal? t.data with
  | some n => (n : Int)
  | none =>
    match MONTH2INT.find? (fun p => pyLower p.1 == pyLower t) with
    | some p => p.2
    | none =>
      match MONTH2INT.find? (fun p => pyTake (pyLower p.1) 3 == pyTake (pyLower t) 3) with
      | some p => p.2
      | none => 0

/-- `_values_match` (picker_handler.py:451-474) for string-valued current and
target values. -/
def values_match (current_value target_value value_type : String) : Bool :=
  if value_type == "day" || value_type == "year" || value_type == "hour" ||
      value_type == "minute" then
    match pyInt? current_value, pyInt? target_value with
    | some a, some b => a == b
    | _, _ => false
  else if value_type == "month" then
    let current_lower := pyLower current_value
    let target_lower := pyLower target_value
    if current_lower == target_lower then true
    else if current_lower.data.length ≥ 3 && target_lower.data.length ≥ 3 then
      pyTake current_lower 3 == pyTake target_lower 3
    else false
  else if value_type == "period" then
    pyUpper current_value == pyUpper target_value
  else false

/-- One recorded scroll gesture: direction, distance factor, and whether the
oscillation detector had fired when it was chosen. -/
structure ScrollCall where
  direction : String
  factor : Int
  oscillation : Bool
deriving DecidableEq

/-- Distance-factor selection of picker_handler.py:321-389: micro-adjustment
schedule, then the oscillation override, then the per-value-class distance
tiers.  Returns the factor and the updated micro-adjustment counter. -/
def chooseFactor (value_type : String) (micro : Bool) (micro_count : Nat)
    (oscillation : Bool) (distance : Int) : Int × Nat :=
  if micro then
    let m := micro_count + 1
    let factor : Int := if m ≤ 2 then 50 else if m ≤ 4 then 35 else 25
    if m > 8 then (80, 0) else (factor, m)
  else if oscillation then (50, micro_count)
  else if value_type == "year" then
    (if distance > 10 then 200 else if distance > 5 then 150
     else if distance > 2 then 70 else if distance == 2 then 50 else 50,
     micro_count)
  else if value_type == "month" then
    (if distance > 6 then 200 else if distance > 3 then 150
     else if distance > 1 then 70 else 50, micro_count)
  else if value_type == "day" || value_type == "hour" then
    (if distance > 15 then 200 else if distance > 8 then 150
     else if distance > 4 then 70 else if distance > 1 then 50 else 50,
     micro_count)
  else if value_type == "minute" then
    (if distance > 30 then 200 else if distance > 15 then 150
     else if distance > 5 then 70 else if distance > 1 then 50 else 50,
     micro_count)
  else
    (min 200 (max 50 (distance * 10)), micro_count)

/-- The factor the per-value-class distance tier alone would choose, with
neither micro-adjustment nor oscillation active. -/
def tierFactor (value_type : String) (distance : Int) : Int :=
  (chooseFactor value_type false 0 false distance).1

/-- One loop iteration on a readable value that did not match
(picker_handler.py:295-399): direction, distance, oscillation test on the
last four observed keys, micro-adjustment activation, factor choice.
Returns the scroll performed plus the updated micro flag and counter. -/
def svfIter (value_type : String) (target_key current_key : Int)
    (previous_values : List Int) (micro : Bool) (micro_count : Nat) :
    ScrollCall × Bool × Nat :=
  let direction_up := target_key > current_key
  let distance := |target_key - current_key|
  let oscillation_detected := previous_values.length ≥ 4 &&
    ((previous_values.drop (previous_values.length - 4)).dedup.length ≤ 2)
  let micro2 := micro || (value_type == "year" && distance ≤ 1)
  let fm := chooseFactor value_type micro2 micro_count oscillation_detected distance
  (⟨if direction_up then "up" else "down", fm.1, oscillation_detected⟩, micro2, fm.2)

/-- The blind scroll used when the wheel value is unreadable
(picker_handler.py:401-413). -/
def fallbackScroll (value_type : String) (target_key : Int) (attempts : Nat) :
    ScrollCall :=
  if value_type == "year" then
    if target_key > 2020 then ⟨"up", 100, false⟩ else ⟨"down", 100, false⟩
  else ⟨if attempts % 2 == 0 then "up" else "down", 100, false⟩

/-- `previous_values.append(k)` capped at the last five entries
(picker_handler.py:286-288). -/
def push5 (previous_values : List Int) (k : Int) : List Int :=
  let l := previous_values ++ [k]
  if l.length > 5 then l.drop 1 else l

/-- The outcome of `select_value_fast`: the returned boolean, the number of
loop iterations consumed, and every scroll gesture issued, in order. -/
structure PickerTrace where
  success : Bool
  attemptsUsed : Nat
  scrolls : List ScrollCall
deriving DecidableEq

/-- The attempt loop of picker_handler.py:277-436, with `fuel` the number of
remaining attempts; at `fuel = 0` the final after-loop re-check
(picker_handler.py:428-433) runs.  One `reads` index is consumed per
iteration, matching the single `get_attribute("value")` call each makes. -/
def svfLoop (reads : Nat → Option String) (target_value value_type : String)
    (target_key : Int) :
    Nat → Nat → List Int → Bool → Nat → List ScrollCall → PickerTrace
  | 0, attempts, _, _, _, scrolls =>
      (match reads attempts with
       | some s =>
           if pyTruthy s && values_match s target_value value_type then
             ⟨true, attempts, scrolls⟩
           else ⟨false, attempts, scrolls⟩
       | none => ⟨false, attempts, scrolls⟩)
  | fuel + 1, attempts, previous_values, micro, micro_count, scrolls =>
      match reads attempts with
      | some s =>
          if pyTruthy s then
            let current_key := to_key s
            let prev2 := push5 previous_values current_key
            if values_match s target_value value_type then
              ⟨true, attempts, scrolls⟩
            else
              let st := svfIter value_type target_key current_key prev2 micro micro_count
              svfLoop reads target_value value_type target_key fuel (attempts + 1)
                prev2 st.2.1 st.2.2 (scrolls ++ [st.1])
          else
            svfLoop reads target_value value_type target_key fuel (attempts + 1)
              previous_values micro micro_count
              (scrolls ++ [fallbackScroll value_type target_key attempts])
      | none =>
          svfLoop reads target_value value_type target_key fuel (attempts + 1)
            previous_values micro micro_count
            (scrolls ++ [fallbackScroll value_type target_key attempts])

/-- `select_value_fast` (picker_handler.py:242-436) for a string target:
convert the target to its comparable key (the month special case and the
`int(target_value)` fallback of lines 258-264), then run the 25-attempt
loop. -/
def select_value_fast (reads : Nat → Option String) (target_value value_type : String) :
    PickerTrace :=
  let target_key :=
    if value_type == "month" then to_key target_value
    else
      match pyInt? target_value with
      | some n => n
      | none => to_key target_value
  svfLoop reads target_value value_type target_key 25 0 [] false 0 []

/-- The year wheel of the specification example: reads 2020, 2021, 2022,
then 2023 from the fourth read on. -/
def yearReads : Nat → Option String := fun k =>
  if k = 0 then some "2020" else if k = 1 then some "2021"
  else if k = 2 then some "2022" else some "2023"

/-- The k-th `get_attribute("value")` read is truthy and matches the target
under `_values_match` — the situation in which the loop returns success. -/
def readMatchesB (reads : Nat → Option String) (target_value value_type : String)
    (k : Nat) : Bool :=
  match reads k with
  | some s => pyTruthy s && values_match s target_value value_type
  | none => false

/-! ## `elements/element_finder.ElementFinder`

The Appium driver is an oracle: `find_elements` maps a (strategy, locator)
pair to the live elements the session would return for it, each carrying
its displayed/enabled state, its attributes, and its location and size. -/

/-- A live element handle as the resolver observes it. -/
structure Elem where
  displayed : Bool
  enabled : Bool
  attrs : List (String × String)
  x : Int
  y : Int
  w : Int
  h : Int
deriving DecidableEq

/-- `element.get_attribute(name)`. -/
def Elem.attr? (e : Elem) (name : String) : Option String :=
  (e.attrs.find? (fun p => p.1 == name)).map (fun p => p.2)

/-- The driver as seen by `ElementFinder`: the element-query oracle, the
page source (`none` models a raised exception on access), and the window
size. -/
structure Driver where
  find_elements : String → String → List Elem
  page_source : Option String
  window_width : Int
  window_height : Int

/-- Identifier cleanup of `ElementFinder.find_element`
(element_finder.py:15): a bare `identifier.strip()`. -/
def ElementFinder.cleanIdentifier (identifier : String) : String :=
  pyStrip identifier

/-- Identifier cleanup of the monolithic `AppNavigator.find_element`
(langchain_appium_navigator.py:832-837): when the identifier contains a
colon, only the part after the first colon is kept, stripped. -/
def AppNavigator.cleanIdentifier (identifier : String) : String :=
  if containsSubstr identifier ":" then
    pyStrip ((pySplit1 identifier ":").getD 1 "")
  else
    pyStrip identifier

/-- First returned element that is displayed and enabled
(element_finder.py:66-70). -/
def firstDisplayedEnabled (elements : List Elem) : Option Elem :=
  elements.find? (fun e => e.displayed && e.enabled)

/-- Exact attribute-union XPath of element_finder.py:50. -/
def exactAttrXpath (c : String) : String :=
  "//*[@text=" ++ apos ++ c ++ apos ++ " or @content-desc=" ++ apos ++ c ++ apos ++
  " or @label=" ++ apos ++ c ++ apos ++ " or @value=" ++ apos ++ c ++ apos ++
  " or @name=" ++ apos ++ c ++ apos ++ "]"

/-- Contains attribute-union XPath of element_finder.py:53. -/
def containsAttrXpath (c : String) : String :=
  "//*[contains(@text, " ++ apos ++ c ++ apos ++ ") or contains(@content-desc, " ++
  apos ++ c ++ apos ++ ") or contains(@label, " ++ apos ++ c ++ apos ++
  ") or contains(@value, " ++ apos ++ c ++ apos ++ ") or contains(@name, " ++
  apos ++ c ++ apos ++ ")]"

/-- Resource-id XPath of element_finder.py:56. -/
def resourceIdXpath (c : String) : String :=
  "//*[contains(@resource-id, " ++ apos ++ c ++ apos ++ ")]"

/-- Whitespace-normalised flexible XPath of element_finder.py:77. -/
def flexibleXpath (n : String) : String :=
  "//*[contains(translate(@text, " ++ apos ++ "\t\n\r " ++ apos ++ ", " ++ apos ++
  "    " ++ apos ++ "), " ++ apos ++ n ++ apos ++
  ") or contains(translate(@content-desc, " ++ apos ++ "\t\n\r " ++ apos ++ ", " ++
  apos ++ "    " ++ apos ++ "), " ++ apos ++ n ++ apos ++
  ") or contains(translate(@label, " ++ apos ++ "\t\n\r " ++ apos ++ ", " ++ apos ++
  "    " ++ apos ++ "), " ++ apos ++ n ++ apos ++
  ") or contains(translate(@value, " ++ apos ++ "\t\n\r " ++ apos ++ ", " ++ apos ++
  "    " ++ apos ++ "), " ++ apos ++ n ++ apos ++
  ") or contains(translate(@name, " ++ apos ++ "\t\n\r " ++ apos ++ ", " ++ apos ++
  "    " ++ apos ++ "), " ++ apos ++ n ++ apos ++ ")]"

/-- Try a list of (strategy, locator) queries in order, taking the first
displayed and enabled element (element_finder.py:62-73). -/
def firstHit (d : Driver) : List (String × String) → Option Elem
  | [] => none
  | (strat, value) :: rest =>
      match firstDisplayedEnabled (d.find_elements strat value) with
      | some e => some e
      | none => firstHit d rest

/-- `_try_standard_element_finding` (element_finder.py:44-92): the four
standard strategies, then the whitespace-normalised flexible contains
query. -/
def ElementFinder.try_standard_element_finding (d : Driver) (clean_identifier : String) :
    Option Elem :=
  let strategies : List (String × String) :=
    [("xpath", exactAttrXpath clean_identifier),
     ("xpath", containsAttrXpath clean_identifier),
     ("xpath", resourceIdXpath clean_identifier),
     ("accessibility id", clean_identifier)]
  match firstHit d strategies with
  | some e => some e
  | none =>
      let normalized_identifier := pyJoin " " (pySplitWs clean_identifier)
      firstDisplayedEnabled (d.find_elements "xpath" (flexibleXpath normalized_identifier))

/-- `_check_for_popup` (element_finder.py:32-42).  The source reads the page
source and then — its own comment says the real implementation would call
`detect_popup_state` — returns the placeholder `{'has_popup': False}`; the
exception path returns `{'has_popup': False}` as well. -/
def ElementFinder.check_for_popup (d : Driver) : Bool :=
  match d.page_source with
  | some _ => false
  | none => false

/-- Popup-scope prefix of element_finder.py:98. -/
def popup_xpath_android : String := ".//android.app.Dialog//*"

/-- Popup-scope prefix of element_finder.py:99. -/
def popup_xpath_ios : String :=
  ".//*[contains(@type, " ++ apos ++ "Alert" ++ apos ++ ") or contains(@type, " ++
  apos ++ "Dialog" ++ apos ++ ") or contains(@type, " ++ apos ++ "ActionSheet" ++
  apos ++ ")]//*"

/-- `_find_element_in_popup` (element_finder.py:94-130): exact then contains
matches scoped to popup descendants, per platform. -/
def ElementFinder.find_element_in_popup (d : Driver) (c : String) : Option Elem :=
  firstHit d
    [("xpath", popup_xpath_android ++ "[@text=" ++ apos ++ c ++ apos ++
        " or @content-desc=" ++ apos ++ c ++ apos ++ "]"),
     ("xpath", popup_xpath_ios ++ "[@label=" ++ apos ++ c ++ apos ++ " or @name=" ++
        apos ++ c ++ apos ++ " or @value=" ++ apos ++ c ++ apos ++ "]"),
     ("xpath", popup_xpath_android ++ "[contains(@text, " ++ apos ++ c ++ apos ++
        ") or contains(@content-desc, " ++ apos ++ c ++ apos ++ ")]"),
     ("xpath", popup_xpath_ios ++ "[contains(@label, " ++ apos ++ c ++ apos ++
        ") or contains(@name, " ++ apos ++ c ++ apos ++ ") or contains(@value, " ++
        apos ++ c ++ apos ++ ")]")]

/-- Clickable-or-enabled query of element_finder.py:196. -/
def clickableXpath : String :=
  "//*[@clickable=" ++ apos ++ "true" ++ apos ++ " or @enabled=" ++ apos ++
  "true" ++ apos ++ "]"

/-- `_find_elements_by_position` with default bounds
(element_finder.py:181-227): displayed elements lying inside the screen. -/
def ElementFinder.find_elements_by_position (d : Driver) : List Elem :=
  (d.find_elements "xpath" clickableXpath).filter (fun e =>
    e.displayed && decide (0 ≤ e.x ∧ e.x + e.w ≤ d.window_width ∧
      0 ≤ e.y ∧ e.y + e.h ≤ d.window_height))

/-- Concatenated attribute text of element_finder.py:142-149. -/
def elemText (e : Elem) : String :=
  ["text", "content-desc", "label", "name", "value"].foldl (fun acc attr =>
    match e.attr? attr with
    | some v => if pyTruthy v then acc ++ " " ++ v else acc
    | none => acc) ""

/-- What the resolver hands back: a live element, or the synthetic
centre-screen-tap element of element_finder.py:162-175. -/
inductive FindOutcome where
  | found (e : Elem)
  | dummyTap (center_x center_y : Int)
  | notFound
deriving DecidableEq

/-- `_try_positional_tapping` (element_finder.py:132-179): case-insensitive
substring filter over positioned elements, else the synthetic centre tap. -/
def ElementFinder.try_positional_tapping (d : Driver) (clean_identifier : String) :
    FindOutcome :=
  let potential_elements := (ElementFinder.find_elements_by_position d).filter
    (fun e => containsSubstr (pyLower (elemText e)) (pyLower clean_identifier))
  match potential_elements with
  | e :: _ => .found e
  | [] => .dummyTap (d.window_width / 2) (d.window_height / 2)

/-- The resolver's answer plus what it did: the match target every strategy
received, and whether the popup-scoped search was ever executed. -/
structure FindTrace where
  outcome : FindOutcome
  matchTarget : String
  popupSearchExecuted : Bool
deriving DecidableEq

/-- `ElementFinder.find_element` (element_finder.py:9-30): clean the
identifier, try the standard strategies, consult `_check_for_popup` and (on
a reported popup) the popup-scoped search, then positional tapping. -/
def ElementFinder.find_element (d : Driver) (identifier : String) : FindTrace :=
  if !pyTruthy identifier then ⟨.notFound, "", false⟩
  else
    let clean_identifier := ElementFinder.cleanIdentifier identifier
    match ElementFinder.try_standard_element_finding d clean_identifier with
    | some e => ⟨.found e, clean_identifier, false⟩
    | none =>
        if ElementFinder.check_for_popup d then
          match ElementFinder.find_element_in_popup d clean_identifier with
          | some e => ⟨.found e, clean_identifier, true⟩
          | none =>
              ⟨ElementFinder.try_positional_tapping d clean_identifier,
               clean_identifier, true⟩
        else
          ⟨ElementFinder.try_positional_tapping d clean_identifier,
           clean_identifier, false⟩

/-- A driver for concrete evaluations: no queries match, the page source
reads fine, the window is 100 by 200. -/
def trivialDriver : Driver :=
  ⟨fun _ _ => [], some "<AppWindow></AppWindow>", 100, 200⟩

/-! ## Claims -/

/-- Claim C1, counterexample: on input `"XCUIElementTypeButton: Settings"` the
match target `ElementFinder.find_element` hands every strategy is the whole
stripped identifier, not `"Settings"`: the claimed colon normalization is
absent from `ElementFinder.find_element`. -/
theorem claim_C1_counterexample :
    (ElementFinder.find_element trivialDriver
        "XCUIElementTypeButton: Settings").matchTarget =
      "XCUIElementTypeButton: Settings" ∧
    "XCUIElementTypeButton: Settings" ≠ "Settings" := by decide

/-- Claim C1, amended: `ElementFinder.find_element` uses the whitespace-stripped
identifier unchanged (colon included) as the match target of all its
strategies; the colon normalization the claim describes is implemented in
the monolithic `AppNavigator.find_element`, where
`"XCUIElementTypeButton: Settings"` does yield match target `"Settings"`. -/
theorem claim_C1_amended (d : Driver) (identifier : String)
    (h : identifier ≠ "") :
    (ElementFinder.find_element d identifier).matchTarget = pyStrip identifier ∧
    AppNavigator.cleanIdentifier "XCUIElementTypeButton: Settings" = "Settings" := by
  refine ⟨?_, by decide⟩
  have hp : pyTruthy identifier = true := by
    simp [pyTruthy]
    exact h
  unfold ElementFinder.find_element
  rw [hp]
  simp only [Bool.not_true, Bool.false_eq_true, if_false]
  cases htry : ElementFinder.try_standard_element_finding d
      (ElementFinder.cleanIdentifier identifier) with
  | some e => simp [ElementFinder.cleanIdentifier]
  | none =>
      cases hpop : ElementFinder.check_for_popup d with
      | true =>
          cases hfp : ElementFinder.find_element_in_popup d
              (ElementFinder.cleanIdentifier identifier) with
          | some e => simp [hpop, hfp, ElementFinder.cleanIdentifier]
          | none => simp [hpop, hfp, ElementFinder.cleanIdentifier]
      | false => simp [hpop, ElementFinder.cleanIdentifier]

/-- Claim C1, witness for the amended theorem at a concrete driver and
identifier. -/
theorem claim_C1_witness :
    (" Wifi " : String) ≠ "" ∧
    (ElementFinder.find_element trivialDriver " Wifi ").matchTarget =
      pyStrip " Wifi " ∧
    AppNavigator.cleanIdentifier "XCUIElementTypeButton: Settings" = "Settings" :=
  ⟨by decide, claim_C1_amended trivialDriver " Wifi " (by decide)⟩

/-- Claim C2: evaluating the bounds-parsing block at the two claimed inputs. The
brace-pair input parses as claimed, but the bracket-pair input yields no
bounds: after stripping the brackets, `"[10,20][110,220]"` becomes
`"10,20110,220"`, only three comma-separated parts, so the `len >= 4` guard
fails and the bounds stay unset. -/
theorem claim_C2_eval :
    parse_bounds "[10,20][110,220]" = none ∧
    parse_bounds "\x7b\x7b10, 20\x7d, \x7b100, 200\x7d\x7d" =
      some ⟨10, 20, 100, 200⟩ ∧
    pyReplace (pyReplace "[10,20][110,220]" "[" "") "]" "" = "10,20110,220" := by
  decide

/-- Claim C4, counterexample: a month wheel bouncing between February and April
with target March.  On the fourth scroll the last four observed keys are
`[2, 4, 2, 4]` (two distinct values), oscillation is detected, and the
factor chosen is 50 hundredths — exactly the factor the normal month tier
chooses for the same distance 1, not strictly larger. -/
theorem claim_C4_counterexample :
    (select_value_fast (fun k => if k % 2 == 0 then some "February" else some "April")
        "March" "month").scrolls.get? 3 = some ⟨"down", 50, true⟩ ∧
    tierFactor "month" 1 = 50 ∧
    ¬ (50 : Int) > 50 := by decide

/-- Claim C4, amended: when the last four observed values collapse into at most
two distinct values and micro-adjustment mode is not active, the distance
factor chosen for the next scroll is exactly 0.5 (represented as 50),
whatever the value class, the micro counter and the distance — so it is not
in general strictly larger than the tier factor. -/
theorem claim_C4_amended (value_type : String) (micro_count : Nat) (distance : Int) :
    chooseFactor value_type false micro_count true distance = (50, micro_count) := rfl

/-- Claim C8: evaluating `detect_popup_state` at a snapshot holding an
`XCUIElementTypeAlert` node, and at one holding both an action-sheet and an
alert node.  Both return `has_popup = false` with the error
`"invalid predicate"`: every query of `detect_popup_state` uses a
`contains()` predicate, which `xml.etree.ElementTree` rejects, so the
claimed classification never happens. -/
theorem claim_C8_eval :
    detect_popup_state
        (.mk "XCUIElementTypeApplication" []
          [.mk "XCUIElementTypeAlert"
            [("type", "XCUIElementTypeAlert"), ("bounds", "[10,20][110,220]")] []]) =
      ⟨false, none, none, some "invalid predicate"⟩ ∧
    detect_popup_state
        (.mk "XCUIElementTypeApplication" []
          [.mk "XCUIElementTypeActionSheet"
            [("type", "XCUIElementTypeActionSheet")] [],
           .mk "XCUIElementTypeAlert" [("type", "XCUIElementTypeAlert")] []]) =
      ⟨false, none, none, some "invalid predicate"⟩ := by decide

/-- Claim C10, counterexample: a snapshot holding both an Alert-typed node and an
ActionSheet-typed node, each with parseable brace bounds.  The result does
not carry `popup_type = "action_sheet"` and carries no bounds at all — the
bounds-versus-type priority asymmetry the claim describes sits in dead
code. -/
theorem claim_C10_counterexample :
    (detect_popup_state
        (.mk "XCUIElementTypeApplication" []
          [.mk "XCUIElementTypeAlert"
            [("type", "XCUIElementTypeAlert"),
             ("bounds", "\x7b\x7b1, 2\x7d, \x7b3, 4\x7d\x7d")] [],
           .mk "XCUIElementTypeActionSheet"
            [("type", "XCUIElementTypeActionSheet"),
             ("bounds", "\x7b\x7b5, 6\x7d, \x7b7, 8\x7d\x7d")] []])).popup_type ≠
      some "action_sheet" ∧
    (detect_popup_state
        (.mk "XCUIElementTypeApplication" []
          [.mk "XCUIElementTypeAlert"
            [("type", "XCUIElementTypeAlert"),
             ("bounds", "\x7b\x7b1, 2\x7d, \x7b3, 4\x7d\x7d")] [],
           .mk "XCUIElementTypeActionSheet"
            [("type", "XCUIElementTypeActionSheet"),
             ("bounds", "\x7b\x7b5, 6\x7d, \x7b7, 8\x7d\x7d")] []])).bounds = none := by
  decide

/-- Claim C10, amended: for every snapshot, `detect_popup_state` returns
`has_popup = false` with error `"invalid predicate"` — its first
`findall` query already uses a `contains()` predicate, which
`xml.etree.ElementTree` rejects, so the branch choosing the popup type and
the branch choosing the bounds source are both unreachable. -/
theorem claim_C10_amended (root : XNode) :
    detect_popup_state root = ⟨false, none, none, some "invalid predicate"⟩ := by
  have h : containsSubstr ios_alert_xpath "contains(" = true := by decide
  unfold detect_popup_state detect_popup_stateCore etFindall
  rw [h]
  rfl

/-- `_check_for_popup` reports no popup for every driver state: both its
normal path (the placeholder) and its exception path return
`{'has_popup': False}`. -/
lemma check_for_popup_false (d : Driver) : ElementFinder.check_for_popup d = false := by
  unfold ElementFinder.check_for_popup
  cases d.page_source <;> rfl

/-- Claim C3: for every driver state and identifier — in particular whenever the
snapshot does contain a popup and the exact and fuzzy strategies fail — the
popup-scoped search of `ElementFinder.find_element` is never executed,
because `_check_for_popup` is a placeholder that unconditionally reports no
popup; the cascade falls straight through to positional tapping. -/
theorem claim_C3_eval (d : Driver) (identifier : String) :
    (ElementFinder.find_element d identifier).popupSearchExecuted = false := by
  unfold ElementFinder.find_element
  cases hp : pyTruthy identifier with
  | false => rfl
  | true =>
      simp only [hp, Bool.not_true, Bool.false_eq_true, if_false]
      cases htry : ElementFinder.try_standard_element_finding d
          (ElementFinder.cleanIdentifier identifier) with
      | some e => rfl
      | none => simp [check_for_popup_false d]

/-- Claim C6: `navigate_multi_step` on an instruction splitting into three steps,
where the session stays valid, the first step's result carries no error and
the second step's does: the returned results are exactly the first two
step results, and the third step is never executed. -/
theorem claim_C6_halt (checkSession : Nat → Bool) (navigate : String → NavResult)
    (instruction s1 s2 s3 : String)
    (hsplit : split_navigation_steps instruction = [s1, s2, s3])
    (hc0 : checkSession 0 = true) (hc1 : checkSession 1 = true)
    (h1 : (navigate s1).error = none) (h2 : (navigate s2).error.isSome = true) :
    navigate_multi_step checkSession navigate instruction =
      ⟨[navigate s1, navigate s2], [s1, s2]⟩ := by
  unfold navigate_multi_step
  rw [hsplit]
  unfold multiStepLoop
  rw [hc0]
  simp only [Bool.not_true, Bool.false_eq_true, if_false, h1, Option.isSome_none,
    List.nil_append]
  unfold multiStepLoop
  rw [hc1]
  simp [h2]

/-- Claim C6, witness: the three-step instruction
`"go to settings then tap wifi then open bluetooth"` with a failure on the
second step stops after two results. -/
theorem claim_C6_witness :
    split_navigation_steps "go to settings then tap wifi then open bluetooth" =
      ["go to settings", "tap wifi", "open bluetooth"] ∧
    navigate_multi_step (fun _ => true) witnessNavigate
        "go to settings then tap wifi then open bluetooth" =
      ⟨[witnessNavigate "go to settings", witnessNavigate "tap wifi"],
       ["go to settings", "tap wifi"]⟩ :=
  ⟨by decide,
   claim_C6_halt (fun _ => true) witnessNavigate
     "go to settings then tap wifi then open bluetooth"
     "go to settings" "tap wifi" "open bluetooth"
     (by decide) rfl rfl (by decide) (by decide)⟩

/-- Splitting by a list of separators, none of which occurs in the
instruction, leaves the singleton fragment list unchanged. -/
lemma foldl_split_no_sep (instruction : String) :
    ∀ seps : List String, (∀ sep ∈ seps, pySplit instruction sep = [instruction]) →
      seps.foldl (fun steps separator => steps.flatMap (fun s => pySplit s separator))
        [instruction] = [instruction] := by
  intro seps
  induction seps with
  | nil => intro _; rfl
  | cons a as ih =>
      intro h
      simp only [List.foldl_cons, List.flatMap_cons, List.flatMap_nil, List.append_nil]
      rw [h a (List.mem_cons_self a as)]
      exact ih (fun sep hs => h sep (List.mem_cons_of_mem a hs))

/-- Claim C7, counterexample: no separator phrase occurs in `"tap wifi "`
(splitting it by each separator leaves it whole), yet
`split_navigation_steps` does not return the input unchanged — it returns
the stripped fragment `"tap wifi"`. -/
theorem claim_C7_counterexample :
    (∀ sep ∈ separators, pySplit "tap wifi " sep = ["tap wifi "]) ∧
    split_navigation_steps "tap wifi " ≠ ["tap wifi "] ∧
    split_navigation_steps "tap wifi " = ["tap wifi"] := by decide

/-- Claim C7, amended: `"go to settings then tap wifi"` splits into exactly
`["go to settings", "tap wifi"]`; an instruction in which no separator
occurs yields the single-element sequence holding the instruction stripped
of surrounding whitespace (the instruction itself when it is all
whitespace); and the result is never the empty sequence. -/
theorem claim_C7_split :
    split_navigation_steps "go to settings then tap wifi" =
      ["go to settings", "tap wifi"] ∧
    (∀ instruction : String,
      (∀ sep ∈ separators, pySplit instruction sep = [instruction]) →
      split_navigation_steps instruction =
        if pyTruthy (pyStrip instruction) then [pyStrip instruction]
        else [instruction]) ∧
    (∀ instruction : String, split_navigation_steps instruction ≠ []) := by
  refine ⟨by decide, ?_, ?_⟩
  · intro instruction h
    unfold split_navigation_steps
    rw [foldl_split_no_sep instruction separators h]
    cases ht : pyTruthy (pyStrip instruction) with
    | true => simp [ht]
    | false => simp [ht]
  · intro instruction
    simp only [split_navigation_steps]
    split
    · simp
    · next hne =>
        intro hnil
        rw [hnil] at hne
        simp at hne

/-- Claim C7, witness for the no-separator case at a concrete instruction. -/
theorem claim_C7_witness :
    (∀ sep ∈ separators, pySplit "open the app" sep = ["open the app"]) ∧
    split_navigation_steps "open the app" =
      (if pyTruthy (pyStrip "open the app") then [pyStrip "open the app"]
       else ["open the app"]) :=
  ⟨by decide, claim_C7_split.2.1 "open the app" (by decide)⟩

/-- Appending with the duplicate check of element_parser.py:73 preserves
distinctness. -/
lemma addUnique_nodup {l : List String} {x : String} (h : l.Nodup) :
    (addUnique l x).Nodup := by
  unfold addUnique
  split
  · exact h
  · next hx => simp [List.nodup_append, h, hx]

/-- The per-type entry collection preserves distinctness of the
accumulator. -/
lemma collectEntries_nodup (elems : List XNode) :
    ∀ acc : List String, acc.Nodup → (collectEntries elems acc).Nodup := by
  induction elems with
  | nil => intro acc h; exact h
  | cons e es ih =>
      intro acc h
      unfold collectEntries
      simp only [List.foldl_cons]
      cases he : entryOf e with
      | some s => exact ih (addUnique acc s) (addUnique_nodup h)
      | none => exact ih acc h

/-- The extraction loop only ever returns duplicate-free entry lists. -/
lemma extractLoop_nodup (root : XNode) :
    ∀ (types acc : List String), acc.Nodup →
      ∀ l, extractLoop root types acc = Except.ok l → l.Nodup := by
  intro types
  induction types with
  | nil =>
      intro acc h l hl
      unfold extractLoop at hl
      cases hl
      exact h
  | cons t ts ih =>
      intro acc h l hl
      unfold extractLoop at hl
      cases hq : etFindall root (typeXpath t) with
      | error e => simp [hq] at hl
      | ok elems =>
          simp only [hq] at hl
          exact ih (collectEntries elems acc) (collectEntries_nodup elems acc h) l hl

/-- Claim C9: inventory extraction is deterministic (a pure function of the
snapshot and platform, so two runs agree) and deduplicating: the ordered
entry list underlying `extract_available_elements` never contains the same
`"type: identifier"` string twice. -/
theorem claim_C9_dedup (root : XNode) (platform : Option String) :
    extract_available_elements root platform = extract_available_elements root platform ∧
    ((extract_entries root platform).toOption.getD []).Nodup := by
  refine ⟨rfl, ?_⟩
  cases h : extract_entries root platform with
  | error e => simp [Except.toOption]
  | ok l =>
      simp only [Except.toOption, Option.getD_some]
      unfold extract_entries at h
      exact extractLoop_nodup root _ [] List.nodup_nil l h

/-- If the first matching read happens at loop offset `i` within the fuel,
the loop returns success there: the attempt counter stops at exactly that
iteration and no scroll is issued at or after the matching read. -/
lemma svfLoop_first_match (reads : Nat → Option String) (target_value value_type : String)
    (target_key : Int) :
    ∀ (fuel i attempts : Nat) (prev : List Int) (micro : Bool) (mcount : Nat)
      (scrolls : List ScrollCall),
      i < fuel →
      (∀ j, j < i → readMatchesB reads target_value value_type (attempts + j) = false) →
      readMatchesB reads target_value value_type (attempts + i) = true →
      (svfLoop reads target_value value_type target_key fuel attempts prev micro mcount
          scrolls).success = true ∧
      (svfLoop reads target_value value_type target_key fuel attempts prev micro mcount
          scrolls).attemptsUsed = attempts + i ∧
      (svfLoop reads target_value value_type target_key fuel attempts prev micro mcount
          scrolls).scrolls.length = scrolls.length + i := by
  intro fuel
  induction fuel with
  | zero =>
      intro i attempts _ _ _ _ hi _ _
      exact absurd hi (Nat.not_lt_zero i)
  | succ fuel ih =>
      intro i attempts prev micro mcount scrolls hi hb hm
      cases hr : reads attempts with
      | none =>
          cases i with
          | zero => simp [readMatchesB, hr] at hm
          | succ j =>
              have harith : attempts + (j + 1) = attempts + 1 + j := by omega
              have hm2 : readMatchesB reads target_value value_type (attempts + 1 + j) =
                  true := by rwa [harith] at hm
              have hb2 : ∀ j2, j2 < j →
                  readMatchesB reads target_value value_type (attempts + 1 + j2) = false := by
                intro j2 hj2
                have h0 := hb (j2 + 1) (by omega)
                have : attempts + (j2 + 1) = attempts + 1 + j2 := by omega
                rwa [this] at h0
              simp only [svfLoop, hr]
              obtain ⟨g1, g2, g3⟩ := ih j (attempts + 1) prev micro mcount
                (scrolls ++ [fallbackScroll value_type target_key attempts])
                (by omega) hb2 hm2
              refine ⟨g1, ?_, ?_⟩
              · rw [g2]; omega
              · rw [g3]; simp [List.length_append]; omega
      | some s =>
          cases ht : pyTruthy s with
          | false =>
              cases i with
              | zero => simp [readMatchesB, hr, ht] at hm
              | succ j =>
                  have harith : attempts + (j + 1) = attempts + 1 + j := by omega
                  have hm2 : readMatchesB reads target_value value_type
                      (attempts + 1 + j) = true := by rwa [harith] at hm
                  have hb2 : ∀ j2, j2 < j →
                      readMatchesB reads target_value value_type (attempts + 1 + j2) =
                        false := by
                    intro j2 hj2
                    have h0 := hb (j2 + 1) (by omega)
                    have : attempts + (j2 + 1) = attempts + 1 + j2 := by omega
                    rwa [this] at h0
                  simp only [svfLoop, hr, ht, Bool.false_eq_true, if_false]
                  obtain ⟨g1, g2, g3⟩ := ih j (attempts + 1) prev micro mcount
                    (scrolls ++ [fallbackScroll value_type target_key attempts])
                    (by omega) hb2 hm2
                  refine ⟨g1, ?_, ?_⟩
                  · rw [g2]; omega
                  · rw [g3]; simp [List.length_append]; omega
          | true =>
              cases hv : values_match s target_value value_type with
              | true =>
                  cases i with
                  | zero =>
                      simp only [svfLoop, hr, ht, hv, if_true]
                      exact ⟨trivial, by omega, by omega⟩
                  | succ j =>
                      exfalso
                      have h0 := hb 0 (by omega)
                      simp [readMatchesB, hr, ht, hv] at h0
              | false =>
                  cases i with
                  | zero => simp [readMatchesB, hr, ht, hv] at hm
                  | succ j =>
                      have harith : attempts + (j + 1) = attempts + 1 + j := by omega
                      have hm2 : readMatchesB reads target_value value_type
                          (attempts + 1 + j) = true := by rwa [harith] at hm
                      have hb2 : ∀ j2, j2 < j →
                          readMatchesB reads target_value value_type (attempts + 1 + j2) =
                            false := by
                        intro j2 hj2
                        have h0 := hb (j2 + 1) (by omega)
                        have : attempts + (j2 + 1) = attempts + 1 + j2 := by omega
                        rwa [this] at h0
                      simp only [svfLoop, hr, ht, hv, Bool.false_eq_true, if_false,
                        if_true]
                      obtain ⟨g1, g2, g3⟩ := ih j (attempts + 1)
                        (push5 prev (to_key s))
                        (svfIter value_type target_key (to_key s)
                          (push5 prev (to_key s)) micro mcount).2.1
                        (svfIter value_type target_key (to_key s)
                          (push5 prev (to_key s)) micro mcount).2.2
                        (scrolls ++ [(svfIter value_type target_key (to_key s)
                          (push5 prev (to_key s)) micro mcount).1])
                        (by omega) hb2 hm2
                      refine ⟨g1, ?_, ?_⟩
                      · rw [g2]; omega
                      · rw [g3]; simp [List.length_append]; omega

/-- Claim C5, counterexample: for value class `period` with target `""` and a
wheel whose every read is `""`, the read value matches the target under
`_values_match` at every iteration, yet `select_value_fast` never returns
success — the empty read is falsy, so the loop takes the blind-scroll path
25 times and ends in failure. -/
theorem claim_C5_counterexample :
    values_match "" "" "period" = true ∧
    (select_value_fast (fun _ => some "") "" "period").success = false ∧
    (select_value_fast (fun _ => some "") "" "period").scrolls.length = 25 := by
  decide

/-- Claim C5, amended: the year wheel reading 2020, 2021, 2022, 2023 reaches
target 2023 at the fourth read, within the 25-attempt cap and after exactly
three scrolls; and in general, whenever the first truthy matching read
occurs at iteration `i < 25`, `select_value_fast` returns success in that
same iteration, with exactly `i` scrolls — none issued at or after the
match. -/
theorem claim_C5_termination :
    ((select_value_fast yearReads "2023" "year").success = true ∧
     (select_value_fast yearReads "2023" "year").attemptsUsed = 3 ∧
     (select_value_fast yearReads "2023" "year").scrolls.length = 3) ∧
    ∀ (reads : Nat → Option String) (target_value value_type : String) (i : Nat),
      i < 25 →
      (∀ j, j < i → readMatchesB reads target_value value_type j = false) →
      readMatchesB reads target_value value_type i = true →
      (select_value_fast reads target_value value_type).success = true ∧
      (select_value_fast reads target_value value_type).attemptsUsed = i ∧
      (select_value_fast reads target_value value_type).scrolls.length = i := by
  refine ⟨⟨by decide, by decide, by decide⟩, ?_⟩
  intro reads target_value value_type i hi hb hm
  have hb0 : ∀ j, j < i →
      readMatchesB reads target_value value_type (0 + j) = false := by
    intro j hj
    simpa using hb j hj
  have hm0 : readMatchesB reads target_value value_type (0 + i) = true := by
    simpa using hm
  simp only [select_value_fast]
  obtain ⟨g1, g2, g3⟩ := svfLoop_first_match reads target_value value_type _
    25 i 0 [] false 0 [] hi hb0 hm0
  refine ⟨g1, ?_, ?_⟩
  · rw [g2]; omega
  · rw [g3]; simp

/-- Claim C5, witness for the general part: a day wheel already showing the
target at the first read succeeds at iteration 0 with no scroll. -/
theorem claim_C5_witness :
    (0 < 25 ∧ readMatchesB (fun _ => some "7") "7" "day" 0 = true) ∧
    (select_value_fast (fun _ => some "7") "7" "day").success = true ∧
    (select_value_fast (fun _ => some "7") "7" "day").attemptsUsed = 0 ∧
    (select_value_fast (fun _ => some "7") "7" "day").scrolls.length = 0 :=
  ⟨⟨by decide, by decide⟩,
   claim_C5_termination.2 (fun _ => some "7") "7" "day" 0 (by decide)
     (fun j hj => absurd hj (Nat.not_lt_zero j)) (by decide)⟩
